import Mathlib

/-!
Verification of the comment-to-code ratio analyzer (`src/main.py`).

The development embeds the two components of the program:

* the line classifier `calculate_comment_code_ratio`, a single forward scan
  over the stripped lines of one file with one boolean flag
  `in_multiline_comment`, producing `(comment_count, code_line_count, ratio)`;
* the directory aggregator `analyze_directory`, which walks a list of
  directory entries, skips excluded extensions (via `os.path.splitext`
  semantics) and non-files, sums the per-file counts of the successfully
  read files and computes an overall ratio with the same
  zero-code-lines policy.

File reading is modelled as an `Except ReadError (List String)` value
attached to each directory entry; the Python float ratio is modelled
exactly as a rational number.
-/

namespace CommentRatio

/-- The mutable scan state of `calculate_comment_code_ratio`'s loop
(`comment_count`, `code_line_count`, `in_multiline_comment` in
`src/main.py` lines 64-66). -/
structure ScanState where
  comment_count : Nat
  code_line_count : Nat
  in_multiline_comment : Bool
deriving DecidableEq, Repr

/-- Python's whitespace test used by `str.strip()` (ASCII range): space,
tab, newline, carriage return, vertical tab, form feed. -/
def isPySpace (c : Char) : Bool :=
  c = ' ' || c = '\t' || c = '\n' || c = '\x0d' || c = '\x0b' || c = '\x0c'

/-- Python's `line.strip()` (`src/main.py` line 69): drop leading and
trailing whitespace characters. -/
def pyStrip (l : List Char) : List Char :=
  ((l.dropWhile isPySpace).reverse.dropWhile isPySpace).reverse

/-- Python's `line.startswith(p)` on stripped character lists. -/
def pyStartsWith (l p : List Char) : Bool :=
  p.isPrefixOf l

/-- Python's `line.endswith(p)` on stripped character lists. -/
def pyEndsWith (l p : List Char) : Bool :=
  p.isSuffixOf l

/-- One iteration of the scan loop of `calculate_comment_code_ratio`
(`src/main.py` lines 68-94): strip the line, skip it when empty, toggle on a
triple-quote delimiter, count lines inside a multiline comment, then the
single-line comment / block-comment chain, otherwise count the line as code.
The two `if` chains of the Python loop are merged into one chain here, which
is faithful because the first chain ends each of its branches with
`continue`. -/
def classifyLine (s : ScanState) (rawLine : String) : ScanState :=
  let line := pyStrip rawLine.data
  if line.isEmpty then s
  else if pyStartsWith line ['\x27', '\x27', '\x27']
       || pyStartsWith line ['\"', '\"', '\"'] then
    { s with in_multiline_comment := !s.in_multiline_comment,
             comment_count := s.comment_count + 1 }
  else if s.in_multiline_comment then
    { s with comment_count := s.comment_count + 1 }
  else if pyStartsWith line ['#'] || pyStartsWith line ['/', '/'] then
    { s with comment_count := s.comment_count + 1 }
  else if pyStartsWith line ['/', '*'] then
    { s with comment_count := s.comment_count + 1, in_multiline_comment := true }
  else if pyEndsWith line ['*', '/'] && s.in_multiline_comment then
    { s with comment_count := s.comment_count + 1, in_multiline_comment := false }
  else
    { s with code_line_count := s.code_line_count + 1 }

/-- The line classifier `calculate_comment_code_ratio` (`src/main.py`
lines 64-101) applied to the lines read from one file: scan all lines from
the initial state, then compute the ratio, which is `comment / code` when
`code_line_count > 0` and `0.0` otherwise. -/
def calculate_comment_code_ratio (lines : List String) : Nat × Nat × ℚ :=
  let final := lines.foldl classifyLine ⟨0, 0, false⟩
  let r : ℚ :=
    if final.code_line_count > 0 then
      (final.comment_count : ℚ) / (final.code_line_count : ℚ)
    else 0
  (final.comment_count, final.code_line_count, r)

/-- The read errors caught by `calculate_comment_code_ratio`
(`src/main.py` lines 54-62). -/
inductive ReadError where
  | fileNotFound
  | permissionDenied
  | otherError (msg : String)
deriving DecidableEq, Repr

/-- `calculate_comment_code_ratio` including its file-read step
(`src/main.py` lines 51-62): on any read error the function returns
`(None, None, None)`, modelled as `none`; on a successful read it
classifies the lines. -/
def calculate_comment_code_ratio_of_read
    (readResult : Except ReadError (List String)) : Option (Nat × Nat × ℚ) :=
  match readResult with
  | .error _ => none
  | .ok lines => some (calculate_comment_code_ratio lines)

/-- Auxiliary scan for `str.rfind`: the index of the last occurrence of `c`
among the remaining characters, `acc` when there is none (`acc` starts
at `-1`, as Python's `rfind` returns `-1` when the character is absent). -/
def lastIndexOfAux (c : Char) : List Char → Int → Int → Int
  | [], _, acc => acc
  | x :: xs, i, acc => lastIndexOfAux c xs (i + 1) (if x = c then i else acc)

/-- Python's `p.rfind(c)`: index of the last occurrence of `c` in `p`,
`-1` when absent. -/
def lastIndexOf (l : List Char) (c : Char) : Int :=
  lastIndexOfAux c l 0 (-1)

/-- `os.path.splitext` (CPython `posixpath`, generic `_splitext` with
separator `/` and extension separator `.`): split off the extension at the
last dot, unless every character of the basename before that dot is itself
a dot (so a leading-dot name such as `.log` keeps an empty extension). -/
def splitext (p : String) : String × String :=
  let cs := p.data
  let sepIndex := lastIndexOf cs '/'
  let dotIndex := lastIndexOf cs '.'
  if sepIndex < dotIndex then
    let between := (cs.drop (sepIndex + 1).toNat).take (dotIndex - sepIndex - 1).toNat
    if between.any (fun c => c ≠ '.') then
      (⟨cs.take dotIndex.toNat⟩, ⟨cs.drop dotIndex.toNat⟩)
    else (p, "")
  else (p, "")

/-- One candidate path yielded by the `os.walk` traversal in
`analyze_directory`: its path, whether `os.path.isfile` holds, and what
reading it yields. -/
structure DirEntry where
  path : String
  isFile : Bool
  readResult : Except ReadError (List String)

/-- The running totals of `analyze_directory` (`src/main.py`
lines 115-117). -/
structure AggregateResult where
  total_comment_lines : Nat
  total_code_lines : Nat
  file_count : Nat
deriving DecidableEq, Repr

/-- The exclusion test of `analyze_directory` (`src/main.py` lines 128-132):
only performed when an exclusion list was given (`if exclude_extensions:`),
and then a literal membership test of the `splitext` extension. -/
def excludedCheck (exclude_extensions : Option (List String)) (path : String) : Bool :=
  match exclude_extensions with
  | none => false
  | some exts => decide ((splitext path).2 ∈ exts)

/-- The body of `analyze_directory`'s inner loop for one directory entry
(`src/main.py` lines 127-147): skip excluded extensions without reading,
skip non-files, then classify; a `None` result (read failure) leaves the
totals untouched, a successful result is added to the totals and counted. -/
def processEntry (exclude_extensions : Option (List String))
    (acc : AggregateResult) (e : DirEntry) : AggregateResult :=
  if excludedCheck exclude_extensions e.path then acc
  else if e.isFile then
    match calculate_comment_code_ratio_of_read e.readResult with
    | none => acc
    | some res =>
      ⟨acc.total_comment_lines + res.1, acc.total_code_lines + res.2.1,
       acc.file_count + 1⟩
  else acc

/-- `analyze_directory` (`src/main.py` lines 104-158) over the list of
directory entries yielded by the walk: fold the per-entry update over the
traversal, then compute the overall ratio from the totals with the same
zero-code-lines policy as a single file (lines 149-152). -/
def analyze_directory (entries : List DirEntry)
    (exclude_extensions : Option (List String)) : AggregateResult × ℚ :=
  let agg := entries.foldl (processEntry exclude_extensions) ⟨0, 0, 0⟩
  let r : ℚ :=
    if agg.total_code_lines > 0 then
      (agg.total_comment_lines : ℚ) / (agg.total_code_lines : ℚ)
    else 0
  (agg, r)

/-- The contribution of a single directory entry to the totals: the result
of processing it from zeroed totals. -/
def entryDelta (exclude_extensions : Option (List String))
    (e : DirEntry) : AggregateResult :=
  processEntry exclude_extensions ⟨0, 0, 0⟩ e

/-- Componentwise sum of two aggregate results. -/
def aggAdd (a b : AggregateResult) : AggregateResult :=
  ⟨a.total_comment_lines + b.total_comment_lines,
   a.total_code_lines + b.total_code_lines,
   a.file_count + b.file_count⟩

/-- Componentwise sum of the per-entry contributions of a traversal. -/
def sumDeltas (exclude_extensions : Option (List String))
    (entries : List DirEntry) : AggregateResult :=
  ⟨(entries.map fun e => (entryDelta exclude_extensions e).total_comment_lines).sum,
   (entries.map fun e => (entryDelta exclude_extensions e).total_code_lines).sum,
   (entries.map fun e => (entryDelta exclude_extensions e).file_count).sum⟩

/-- The specification's Line Classifier algorithm (spec §4.1), transcribed
rule by rule in the spec's order: (1) empty after trimming is skipped;
(2) a triple-quote opener toggles the flag and counts as a comment;
(3) inside a multiline comment every line is a comment; (4) a `#` or `//`
prefix is a comment; (5) a `/*` prefix is a comment and raises the flag;
(6) a `*/` suffix with the flag raised is a comment and lowers the flag;
(7) everything else is code. -/
def specStep (s : ScanState) (rawLine : String) : ScanState :=
  let line := pyStrip rawLine.data
  if line.isEmpty then s
  else if pyStartsWith line ['\"', '\"', '\"']
       || pyStartsWith line ['\x27', '\x27', '\x27'] then
    { s with in_multiline_comment := !s.in_multiline_comment,
             comment_count := s.comment_count + 1 }
  else if s.in_multiline_comment then
    { s with comment_count := s.comment_count + 1 }
  else if pyStartsWith line ['#'] || pyStartsWith line ['/', '/'] then
    { s with comment_count := s.comment_count + 1 }
  else if pyStartsWith line ['/', '*'] then
    { s with comment_count := s.comment_count + 1, in_multiline_comment := true }
  else if pyEndsWith line ['*', '/'] && s.in_multiline_comment then
    { s with comment_count := s.comment_count + 1, in_multiline_comment := false }
  else
    { s with code_line_count := s.code_line_count + 1 }

end CommentRatio

namespace CommentRatio

example : splitext ".log" = (".log", "") := by decide

example : splitext "a.log" = ("a", ".log") := by decide

example : splitext "dir/.log" = ("dir/.log", "") := by decide

example : splitext "dir/a.py" = ("dir/a", ".py") := by decide

example :
    calculate_comment_code_ratio ["\"\"\"", "code", "code", "\"\"\"", "code"]
      = (4, 1, 4) := by
  have h : ["\"\"\"", "code", "code", "\"\"\"", "code"].foldl classifyLine
      ⟨0, 0, false⟩ = ⟨4, 1, false⟩ := by decide
  simp [calculate_comment_code_ratio, h]

example :
    calculate_comment_code_ratio ["/* c */", "code"] = (2, 0, 0) := by decide

example : calculate_comment_code_ratio ["# hello", "world"] = (1, 1, 1) := by
  have h : ["# hello", "world"].foldl classifyLine ⟨0, 0, false⟩
      = ⟨1, 1, false⟩ := by decide
  simp [calculate_comment_code_ratio, h]

/-- A blank line (empty after stripping) leaves the scan state unchanged. -/
theorem classifyLine_blank (s : ScanState) (l : String)
    (h : (pyStrip l.data).isEmpty = true) : classifyLine s l = s := by
  unfold classifyLine
  simp [h]

/-- Each scan step adds exactly one to the sum of the two counters when the
stripped line is nonempty, and nothing when it is blank. -/
theorem classifyLine_counts (s : ScanState) (l : String) :
    (classifyLine s l).comment_count + (classifyLine s l).code_line_count
      = s.comment_count + s.code_line_count
        + (if (pyStrip l.data).isEmpty then 0 else 1) := by
  unfold classifyLine
  dsimp only
  split_ifs <;> simp_all <;> omega

/-- A scan step never changes the state in any way other than bumping one
counter by one: the counters never decrease. -/
theorem classifyLine_mono (s : ScanState) (l : String) :
    s.comment_count ≤ (classifyLine s l).comment_count ∧
    s.code_line_count ≤ (classifyLine s l).code_line_count := by
  unfold classifyLine
  dsimp only
  split_ifs <;> simp_all

/-- Summing the two counters over a whole scan counts exactly the nonblank
lines, starting from any state. -/
theorem scan_counts (lines : List String) (s : ScanState) :
    (lines.foldl classifyLine s).comment_count
      + (lines.foldl classifyLine s).code_line_count
      = s.comment_count + s.code_line_count
        + lines.countP (fun l => !(pyStrip l.data).isEmpty) := by
  induction lines generalizing s with
  | nil => simp
  | cons a as ih =>
    simp only [List.foldl_cons, List.countP_cons]
    rw [ih]
    have h := classifyLine_counts s a
    cases hb : (pyStrip a.data).isEmpty <;> simp [hb] at h ⊢ <;> omega

/-- The transcription of the spec's rule list agrees with the code's scan
step on every state and every line. -/
theorem specStep_eq_classifyLine (s : ScanState) (l : String) :
    specStep s l = classifyLine s l := by
  unfold specStep classifyLine
  cases hd : pyStartsWith (pyStrip l.data) ['\"', '\"', '\"'] <;>
  cases hs : pyStartsWith (pyStrip l.data) ['\x27', '\x27', '\x27'] <;>
    simp [hd, hs]

/-- Processing one directory entry adds that entry's own contribution to the
running totals, componentwise. -/
theorem processEntry_aggAdd (ex : Option (List String))
    (acc : AggregateResult) (e : DirEntry) :
    processEntry ex acc e = aggAdd acc (entryDelta ex e) := by
  obtain ⟨a, b, c⟩ := acc
  simp only [processEntry, entryDelta, aggAdd]
  cases hc : excludedCheck ex e.path <;>
  cases hf : e.isFile <;>
  cases hr : calculate_comment_code_ratio_of_read e.readResult <;>
    simp [hc, hf, hr]

/-- A traversal's fold equals the initial totals plus the componentwise sum
of the per-entry contributions. -/
theorem foldl_processEntry (ex : Option (List String))
    (entries : List DirEntry) (acc : AggregateResult) :
    entries.foldl (processEntry ex) acc = aggAdd acc (sumDeltas ex entries) := by
  induction entries generalizing acc with
  | nil =>
    obtain ⟨a, b, c⟩ := acc
    simp [sumDeltas, aggAdd]
  | cons e es ih =>
    simp only [List.foldl_cons]
    rw [processEntry_aggAdd, ih]
    obtain ⟨a, b, c⟩ := acc
    simp [sumDeltas, aggAdd, Nat.add_assoc]

/-- The componentwise sum of per-entry contributions is invariant under
permutation of the traversal order. -/
theorem sumDeltas_perm (ex : Option (List String)) {l1 l2 : List DirEntry}
    (h : l1.Perm l2) : sumDeltas ex l1 = sumDeltas ex l2 := by
  unfold sumDeltas
  rw [List.Perm.sum_eq (h.map _), List.Perm.sum_eq (h.map _),
      List.Perm.sum_eq (h.map _)]

/-- The nonblank and blank lines of a file together account for all its
physical lines. -/
theorem countP_blank_split (lines : List String) :
    lines.countP (fun l => !(pyStrip l.data).isEmpty)
      + lines.countP (fun l => (pyStrip l.data).isEmpty) = lines.length := by
  induction lines with
  | nil => simp
  | cons a as ih =>
    simp only [List.countP_cons]
    cases hb : (pyStrip a.data).isEmpty <;> simp [hb] <;> omega

/-- The zero-code-lines ratio policy, as a fact about the conditional used
by both the classifier and the aggregator. -/
theorem ratio_policy_of_counts (c k : Nat) :
    (0 < k → (if k > 0 then (c : ℚ) / (k : ℚ) else 0) = (c : ℚ) / (k : ℚ)) ∧
    (k = 0 → (if k > 0 then (c : ℚ) / (k : ℚ) else 0) = 0) ∧
    0 ≤ (if k > 0 then (c : ℚ) / (k : ℚ) else 0) := by
  refine ⟨fun h => if_pos h, fun h => by simp [h], ?_⟩
  split
  · positivity
  · exact le_refl 0

/-- Claim C1: the Line Classifier computes `(comment_count, code_count)` by
a single forward pass with one boolean flag initially false, applying to
each stripped line the spec's ordered rules (1)-(7): the code's scan step
coincides with the rule list transcribed in `specStep`, the pass is the
fold of that step from `(0, 0, false)`, and the returned counts are the
final counters of that fold. -/
theorem C1_classifier_follows_rule_list (lines : List String) :
    lines.foldl classifyLine ⟨0, 0, false⟩ = lines.foldl specStep ⟨0, 0, false⟩ ∧
    (calculate_comment_code_ratio lines).1
      = (lines.foldl specStep ⟨0, 0, false⟩).comment_count ∧
    (calculate_comment_code_ratio lines).2.1
      = (lines.foldl specStep ⟨0, 0, false⟩).code_line_count := by
  have hfun : classifyLine = specStep := by
    funext s l
    exact (specStep_eq_classifyLine s l).symm
  refine ⟨by rw [hfun], ?_, ?_⟩ <;> simp [calculate_comment_code_ratio, hfun]

/-- Claim C2 as stated is false: on
`['\"\"\"', \"code\", \"code\", '\"\"\"', \"code\"]` the classifier does not
return `comment_lines = 2` and `code_lines = 3` (the two interior lines are
counted as comments while the flag is raised). -/
theorem C2_counterexample :
    ¬ ((calculate_comment_code_ratio
          ["\"\"\"", "code", "code", "\"\"\"", "code"]).1 = 2
       ∧ (calculate_comment_code_ratio
          ["\"\"\"", "code", "code", "\"\"\"", "code"]).2.1 = 3) := by
  decide

/-- Claim C2 amended: on
`['\"\"\"', \"code\", \"code\", '\"\"\"', \"code\"]` the classifier returns
`comment_lines = 4` (both delimiter lines and both interior lines) and
`code_lines = 1` (the line after the closing delimiter). -/
theorem C2_amended_counts :
    (calculate_comment_code_ratio
        ["\"\"\"", "code", "code", "\"\"\"", "code"]).1 = 4
    ∧ (calculate_comment_code_ratio
        ["\"\"\"", "code", "code", "\"\"\"", "code"]).2.1 = 1 := by
  decide

/-- Claim C3 as stated is false: on `[\"/* c */\", \"code\"]` the classifier
does not return `comment_lines = 1`; the misclassified second line is
counted as a comment, so the comment count is 2. -/
theorem C3_counterexample :
    ¬ ((calculate_comment_code_ratio ["/* c */", "code"]).1 = 1
       ∧ (calculate_comment_code_ratio ["/* c */", "code"]).2.1 = 0) := by
  decide

/-- Claim C3 amended: on `[\"/* c */\", \"code\"]` the classifier returns
`comment_lines = 2` and `code_lines = 0`; the second line is misclassified
as a comment because the multiline flag remains set after the `/*` line. -/
theorem C3_amended_counts :
    (calculate_comment_code_ratio ["/* c */", "code"]).1 = 2
    ∧ (calculate_comment_code_ratio ["/* c */", "code"]).2.1 = 0
    ∧ (["/* c */"].foldl classifyLine ⟨0, 0, false⟩).in_multiline_comment
        = true := by
  decide

/-- Claim C4: comment lines plus code lines plus blank lines equals the
number of physical lines; hence the two counts are at most the number of
lines, with equality exactly when no line is blank. -/
theorem C4_line_accounting (lines : List String) :
    (calculate_comment_code_ratio lines).1 + (calculate_comment_code_ratio lines).2.1
        + lines.countP (fun l => (pyStrip l.data).isEmpty) = lines.length ∧
    (calculate_comment_code_ratio lines).1 + (calculate_comment_code_ratio lines).2.1
        ≤ lines.length ∧
    ((calculate_comment_code_ratio lines).1 + (calculate_comment_code_ratio lines).2.1
        = lines.length
      ↔ lines.countP (fun l => (pyStrip l.data).isEmpty) = 0) := by
  have h : (lines.foldl classifyLine ⟨0, 0, false⟩).comment_count
      + (lines.foldl classifyLine ⟨0, 0, false⟩).code_line_count
      = lines.countP (fun l => !(pyStrip l.data).isEmpty) := by
    simpa using scan_counts lines ⟨0, 0, false⟩
  have hsum := countP_blank_split lines
  simp only [calculate_comment_code_ratio]
  refine ⟨by omega, by omega, by omega⟩

/-- Claim C5: the per-file ratio is `comment / code` when there are code
lines and exactly `0` when there are none, hence always nonnegative; the
aggregator's overall ratio follows the same policy on the totals. -/
theorem C5_ratio_policy (lines : List String) (entries : List DirEntry)
    (ex : Option (List String)) :
    (0 < (calculate_comment_code_ratio lines).2.1 →
        (calculate_comment_code_ratio lines).2.2
          = ((calculate_comment_code_ratio lines).1 : ℚ)
              / ((calculate_comment_code_ratio lines).2.1 : ℚ)) ∧
    ((calculate_comment_code_ratio lines).2.1 = 0 →
        (calculate_comment_code_ratio lines).2.2 = 0) ∧
    0 ≤ (calculate_comment_code_ratio lines).2.2 ∧
    (0 < (analyze_directory entries ex).1.total_code_lines →
        (analyze_directory entries ex).2
          = ((analyze_directory entries ex).1.total_comment_lines : ℚ)
              / ((analyze_directory entries ex).1.total_code_lines : ℚ)) ∧
    ((analyze_directory entries ex).1.total_code_lines = 0 →
        (analyze_directory entries ex).2 = 0) ∧
    0 ≤ (analyze_directory entries ex).2 := by
  have h1 : (calculate_comment_code_ratio lines).2.2
      = (if (calculate_comment_code_ratio lines).2.1 > 0
         then ((calculate_comment_code_ratio lines).1 : ℚ)
                / ((calculate_comment_code_ratio lines).2.1 : ℚ) else 0) := rfl
  have h2 : (analyze_directory entries ex).2
      = (if (analyze_directory entries ex).1.total_code_lines > 0
         then ((analyze_directory entries ex).1.total_comment_lines : ℚ)
                / ((analyze_directory entries ex).1.total_code_lines : ℚ)
         else 0) := rfl
  obtain ⟨k1, k2, k3⟩ := ratio_policy_of_counts
      (calculate_comment_code_ratio lines).1 (calculate_comment_code_ratio lines).2.1
  obtain ⟨k4, k5, k6⟩ := ratio_policy_of_counts
      (analyze_directory entries ex).1.total_comment_lines
      (analyze_directory entries ex).1.total_code_lines
  rw [h1, h2]
  exact ⟨k1, k2, k3, k4, k5, k6⟩

/-- Claim C5 witness: a file with one comment line and no code line has
ratio exactly 0, a nonnegative value. -/
theorem C5_ratio_policy_witness :
    (calculate_comment_code_ratio ["# only a comment"]).2.2 = 0 ∧
    0 ≤ (calculate_comment_code_ratio ["# only a comment"]).2.2 :=
  ⟨(C5_ratio_policy ["# only a comment"] [] none).2.1 (by decide),
   (C5_ratio_policy ["# only a comment"] [] none).2.2.1⟩

/-- Claim C6: the classifier never fails on content — a blank line is
skipped and every nonblank line lands in exactly one of the two buckets —
while any read failure yields the explicit no-result signal `none`,
distinguishable from the `some` result of any successful read, in
particular from an empty file's. -/
theorem C6_totality_and_read_failure :
    (∀ err : ReadError,
        calculate_comment_code_ratio_of_read (Except.error err) = none) ∧
    (∀ lines : List String,
        calculate_comment_code_ratio_of_read (Except.ok lines)
          = some (calculate_comment_code_ratio lines)) ∧
    (∀ err : ReadError,
        calculate_comment_code_ratio_of_read (Except.error err)
          ≠ calculate_comment_code_ratio_of_read (Except.ok [])) ∧
    (∀ (s : ScanState) (l : String), (pyStrip l.data).isEmpty = false →
        (classifyLine s l).comment_count + (classifyLine s l).code_line_count
          = s.comment_count + s.code_line_count + 1) ∧
    (∀ (s : ScanState) (l : String), (pyStrip l.data).isEmpty = true →
        classifyLine s l = s) := by
  refine ⟨fun err => rfl, fun lines => rfl, fun err h => ?_, fun s l h => ?_,
      classifyLine_blank⟩
  · simp [calculate_comment_code_ratio_of_read] at h
  · have hc := classifyLine_counts s l
    rw [h] at hc
    simpa using hc

/-- Claim C6 witness: a concrete read failure yields `none`, a blank line
leaves the state unchanged, and a nonblank line fills exactly one bucket. -/
theorem C6_totality_and_read_failure_witness :
    calculate_comment_code_ratio_of_read (Except.error ReadError.fileNotFound)
      = none ∧
    classifyLine ⟨0, 0, false⟩ "   " = ⟨0, 0, false⟩ ∧
    (classifyLine ⟨0, 0, false⟩ "x").comment_count
      + (classifyLine ⟨0, 0, false⟩ "x").code_line_count = 1 :=
  ⟨C6_totality_and_read_failure.1 ReadError.fileNotFound,
   C6_totality_and_read_failure.2.2.2.2 ⟨0, 0, false⟩ "   " (by decide),
   C6_totality_and_read_failure.2.2.2.1 ⟨0, 0, false⟩ "x" (by decide)⟩

/-- Claim C7: a read failure contributes nothing to the totals and the
traversal continues; a successfully classified file adds its counts and
bumps the file counter by one; the final aggregate is the sum of per-entry
contributions over the traversal, and is invariant under permutation of
the traversal order. -/
theorem C7_aggregation (ex : Option (List String)) :
    (∀ (acc : AggregateResult) (e : DirEntry) (err : ReadError),
        e.readResult = Except.error err → processEntry ex acc e = acc) ∧
    (∀ (acc : AggregateResult) (e : DirEntry) (lines : List String),
        excludedCheck ex e.path = false → e.isFile = true →
        e.readResult = Except.ok lines →
        processEntry ex acc e
          = ⟨acc.total_comment_lines + (calculate_comment_code_ratio lines).1,
             acc.total_code_lines + (calculate_comment_code_ratio lines).2.1,
             acc.file_count + 1⟩) ∧
    (∀ entries : List DirEntry,
        (analyze_directory entries ex).1 = sumDeltas ex entries) ∧
    (∀ l1 l2 : List DirEntry, l1.Perm l2 →
        analyze_directory l1 ex = analyze_directory l2 ex) := by
  refine ⟨?_, ?_, ?_, ?_⟩
  · intro acc e err h
    simp only [processEntry, h, calculate_comment_code_ratio_of_read]
    split_ifs <;> rfl
  · intro acc e lines hex hf h
    simp [processEntry, hex, hf, h, calculate_comment_code_ratio_of_read]
  · intro entries
    show entries.foldl (processEntry ex) ⟨0, 0, 0⟩ = sumDeltas ex entries
    rw [foldl_processEntry]
    simp [aggAdd, sumDeltas]
  · intro l1 l2 hp
    simp only [analyze_directory]
    rw [foldl_processEntry, foldl_processEntry, sumDeltas_perm ex hp]

/-- Claim C7 witness: an unreadable file contributes nothing; a readable
one-comment-one-code file adds its counts and is counted; swapping two
entries leaves the aggregate unchanged. -/
theorem C7_aggregation_witness :
    processEntry none ⟨0, 0, 0⟩
        ⟨"f.py", true, Except.error ReadError.permissionDenied⟩ = ⟨0, 0, 0⟩ ∧
    processEntry none ⟨0, 0, 0⟩ ⟨"g.py", true, Except.ok ["# c", "x"]⟩
      = ⟨0 + (calculate_comment_code_ratio ["# c", "x"]).1,
         0 + (calculate_comment_code_ratio ["# c", "x"]).2.1, 0 + 1⟩ ∧
    analyze_directory
        [⟨"f.py", true, Except.error ReadError.permissionDenied⟩,
         ⟨"g.py", true, Except.ok ["# c", "x"]⟩] none
      = analyze_directory
        [⟨"g.py", true, Except.ok ["# c", "x"]⟩,
         ⟨"f.py", true, Except.error ReadError.permissionDenied⟩] none :=
  ⟨(C7_aggregation none).1 ⟨0, 0, 0⟩
      ⟨"f.py", true, Except.error ReadError.permissionDenied⟩
      ReadError.permissionDenied rfl,
   (C7_aggregation none).2.1 ⟨0, 0, 0⟩ ⟨"g.py", true, Except.ok ["# c", "x"]⟩
      ["# c", "x"] rfl rfl rfl,
   (C7_aggregation none).2.2.2 _ _ (List.Perm.swap _ _ _)⟩

/-- Claim C8: a file whose `splitext` extension is in the exclude set is
skipped outright — the result does not depend on its contents or on
whether it is a regular file, and the totals are unchanged. -/
theorem C8_excluded_extension_never_read (exts : List String) (path : String)
    (h : (splitext path).2 ∈ exts) (acc : AggregateResult) (isF : Bool)
    (r : Except ReadError (List String)) :
    processEntry (some exts) acc ⟨path, isF, r⟩ = acc := by
  have hb : excludedCheck (some exts) path = true := by
    simp [excludedCheck, h]
  simp [processEntry, hb]

/-- Claim C8 witness: `a.log` with exclude set `{.log}` contributes
nothing even though it is a readable regular file. -/
theorem C8_excluded_extension_never_read_witness :
    processEntry (some [".log"]) ⟨0, 0, 0⟩ ⟨"a.log", true, Except.ok ["x"]⟩
      = ⟨0, 0, 0⟩ :=
  C8_excluded_extension_never_read [".log"] "a.log" (by decide) ⟨0, 0, 0⟩
    true (Except.ok ["x"])

/-- Claim C9: the classifier is deterministic and stateless across
invocations — classifying the same fixed line sequence any number of times
yields the identical result every time, since each call starts from the
fresh state `(0, 0, false)`. -/
theorem C9_stateless_idempotent (lines : List String) (n : Nat) :
    (List.replicate n lines).map calculate_comment_code_ratio
      = List.replicate n (calculate_comment_code_ratio lines) :=
  List.map_replicate

/-- Claim C10: a file named exactly `.log` has an empty `splitext`
extension, so it is not excluded by an exclude set containing `.log`: it
is read, classified and counted like any other file. -/
theorem C10_dotfile_empty_extension_processed (acc : AggregateResult)
    (lines : List String) :
    splitext ".log" = (".log", "") ∧
    processEntry (some [".log"]) acc ⟨".log", true, Except.ok lines⟩
      = ⟨acc.total_comment_lines + (calculate_comment_code_ratio lines).1,
         acc.total_code_lines + (calculate_comment_code_ratio lines).2.1,
         acc.file_count + 1⟩ := by
  refine ⟨by decide, ?_⟩
  have hb : excludedCheck (some [".log"]) ".log" = false := by decide
  simp [processEntry, hb, calculate_comment_code_ratio_of_read]

end CommentRatio
